import Mathlib

/-!
Certificate generator: a shallow embedding of the name-placement core.

This file embeds the decision logic of `generator.py` and the matching
preview helpers of `config_gui.py`: configuration lookup with Python's
`dict.get` semantics, the numeric-coercion helpers `_safe_int` /
`_safe_float`, visible-length counting, the split decision, the long-name
and split style overrides, line-gap resolution, baseline resolution,
horizontal centering, the debug-mode normalizer, and the batch driver
`process_csv`.

Modelling conventions:
* Python/JSON scalars are the inductive type `PyValue`; a configuration
  document is an association list of string keys to `PyValue`s.
* Python floats are modelled as exact rationals (`ℚ`); the non-finite
  values `inf`/`nan` and binary rounding are outside the model.
* Python exceptions that the source lets escape are modelled with
  `Except String`; exceptions the source catches never appear in a result.
-/

namespace CertGen

/-- A Python/JSON scalar as it can appear as a configuration value:
a string, an int, a float (modelled as an exact rational), a boolean,
or `None` (JSON `null`). -/
inductive PyValue where
  | str : String → PyValue
  | int : Int → PyValue
  | float : ℚ → PyValue
  | bool : Bool → PyValue
  | none : PyValue
deriving DecidableEq

/-- A flat configuration document (Python `dict` with string keys),
modelled as an association list; the first binding of a key wins. -/
def Config : Type := List (String × PyValue)

/-- Python `config.get(key)` distinguishing an absent key (`Option.none`)
from a key bound to `None` (`some PyValue.none`). -/
def cfgGet (config : Config) (key : String) : Option PyValue :=
  (List.find? (fun kv => kv.1 == key) config).map (fun kv => kv.2)

/-- Python `config.get(key, default)`: the stored value when the key is
present (even when that value is `None`), the default otherwise. -/
def cfgGetD (config : Config) (key : String) (default : PyValue) : PyValue :=
  (cfgGet config key).getD default

/-- Python `config.get(key)` with its implicit default `None`. -/
def cfgGetN (config : Config) (key : String) : PyValue :=
  cfgGetD config key PyValue.none

/-- Decimal value of a list of digit characters. -/
def digitsVal (cs : List Char) : Nat :=
  cs.foldl (fun a c => a * 10 + (c.toNat - 48)) 0

/-- A nonempty run of decimal digits. -/
def isDigits (cs : List Char) : Bool :=
  !cs.isEmpty && cs.all Char.isDigit

/-- Python `str.strip()` in whitespace mode: drop leading and trailing
whitespace characters (`str.isspace` modelled as `Char.isWhitespace`). -/
def py_strip (s : String) : String :=
  ⟨((s.toList.dropWhile Char.isWhitespace).reverse.dropWhile Char.isWhitespace).reverse⟩

/-- Python `str.lower()`, modelled on the ASCII range. -/
def py_lower (s : String) : String :=
  ⟨s.toList.map Char.toLower⟩

/-- Modelled from Python's built-in `int()` applied to a string:
surrounding whitespace is ignored, then an optional sign followed by a
nonempty run of decimal digits. (Digit-group underscores, which Python
also accepts, are not modelled.) -/
def pyIntOfString (s : String) : Option Int :=
  match (py_strip s).toList with
  | '+' :: cs => if isDigits cs then some (digitsVal cs : Int) else Option.none
  | '-' :: cs => if isDigits cs then some (-(digitsVal cs : Int)) else Option.none
  | cs => if isDigits cs then some (digitsVal cs : Int) else Option.none

/-- An unsigned decimal mantissa: `digits`, `digits.digits`, `.digits`
or `digits.`, valued as an exact rational. -/
def pyMantissa (cs : List Char) : Option ℚ :=
  match cs.splitOn '.' with
  | [w] => if isDigits w then some (digitsVal w : ℚ) else Option.none
  | [w, f] =>
      if w.isEmpty && f.isEmpty then Option.none
      else if w.all Char.isDigit && f.all Char.isDigit then
        some ((digitsVal w : ℚ) + (digitsVal f : ℚ) / (10 ^ f.length))
      else Option.none
  | _ => Option.none

/-- A signed decimal exponent part. -/
def pyExponent (cs : List Char) : Option Int :=
  match cs with
  | '+' :: ds => if isDigits ds then some (digitsVal ds : Int) else Option.none
  | '-' :: ds => if isDigits ds then some (-(digitsVal ds : Int)) else Option.none
  | ds => if isDigits ds then some (digitsVal ds : Int) else Option.none

/-- Modelled from Python's built-in `float()` applied to a string:
surrounding whitespace is ignored, then an optional sign, a decimal
mantissa and an optional `e`/`E` exponent, valued exactly as a rational.
(`inf`/`nan` literals and digit-group underscores are not modelled.) -/
def pyFloatOfString (s : String) : Option ℚ :=
  let core : List Char → Option ℚ := fun cs =>
    match cs.splitOn 'e' with
    | [m] => pyMantissa m
    | [m, ex] => do
        let mv ← pyMantissa m
        let ev ← pyExponent ex
        pure (mv * (10 : ℚ) ^ ev)
    | _ => Option.none
  match (py_lower (py_strip s)).toList with
  | '+' :: cs => core cs
  | '-' :: cs => (core cs).map (fun q => -q)
  | cs => core cs

/-- Truncation of a rational toward zero: the rounding Python's built-in
`int()` applies to a float. -/
def ratTrunc (q : ℚ) : Int :=
  q.num.tdiv q.den

/-- `_safe_int` from generator.py (the GUI `_safe_int` is identical):
Python `int(value)` with `TypeError`/`ValueError` mapped to `None`.
`int` truncates floats toward zero, treats booleans as 0/1, parses
decimal strings and rejects `None` and non-numeric strings. -/
def safe_int : PyValue → Option Int
  | .int n => some n
  | .float q => some (ratTrunc q)
  | .bool b => some (if b then 1 else 0)
  | .str s => pyIntOfString s
  | .none => Option.none

/-- `_safe_float` from generator.py (the GUI `_safe_float` is identical):
Python `float(value)` with `TypeError`/`ValueError` mapped to `None`. -/
def safe_float : PyValue → Option ℚ
  | .int n => some (n : ℚ)
  | .float q => some q
  | .bool b => some (if b then 1 else 0)
  | .str s => pyFloatOfString s
  | .none => Option.none

/-- `_count_name_characters` from generator.py (and the GUI method of the
same name): the number of characters of the name that are not whitespace
(Python `str.isspace` modelled as `Char.isWhitespace`). -/
def count_name_characters (full_name : String) : Nat :=
  (full_name.toList.filter (fun c => !c.isWhitespace)).length

/-- `should_split_full_name` from generator.py: look up
`split_name_threshold` with default `24`, coerce it with `_safe_int`;
an invalid value suppresses the split, otherwise split exactly when the
visible length strictly exceeds the threshold. -/
def should_split_full_name (full_name : String) (config : Config) : Bool :=
  let threshold_raw := cfgGetD config "split_name_threshold" (.int 24)
  match safe_int threshold_raw with
  | Option.none => false
  | some threshold => decide ((count_name_characters full_name : Int) > threshold)

/-- `resolve_split_line_gap` from generator.py: the configured
`split_name_line_gap` when `_safe_float` accepts it, otherwise
`pdf.font_size * 0.85` where `pdf.font_size` is the current font size in
document units (mm). -/
def resolve_split_line_gap (pdf_font_size : ℚ) (config : Config) : ℚ :=
  let gap_raw := cfgGetN config "split_name_line_gap"
  match safe_float gap_raw with
  | some gap => gap
  | Option.none => pdf_font_size * 0.85

/-- `resolve_split_style` from generator.py: override the already-resolved
font size with `split_name_font_size` and the baseline with
`split_name_text_y`, each only when present and accepted by
`_safe_float`; invalid overrides are logged and ignored. The baseline
travels as a raw `PyValue` because the source passes it on unparsed. -/
def resolve_split_style (base_font_size : ℚ) (baseline_override : PyValue)
    (config : Config) : ℚ × PyValue :=
  let raw_font_size := cfgGetN config "split_name_font_size"
  let font_size :=
    if raw_font_size = PyValue.none then base_font_size
    else match safe_float raw_font_size with
      | some override_font => override_font
      | Option.none => base_font_size
  let raw_baseline := cfgGetN config "split_name_text_y"
  let baseline :=
    if raw_baseline = PyValue.none then baseline_override
    else match safe_float raw_baseline with
      | some override_baseline => PyValue.float override_baseline
      | Option.none => baseline_override
  (font_size, baseline)

/-- `resolve_name_style` from generator.py: fail unless `font_size`
coerces to a number; apply the long-name override when
`long_name_threshold` is a valid integer strictly exceeded by the visible
length, taking `long_name_font_size` when valid (else the base size) and
`long_name_text_y` when present (else `text_y`); otherwise return the
base size and `text_y`. The baseline is returned unparsed. -/
def resolve_name_style (full_name : String) (config : Config) :
    Except String (ℚ × PyValue) :=
  match safe_float (cfgGetN config "font_size") with
  | Option.none => .error "Invalid or missing font_size in content configuration."
  | some base_font_size =>
    let threshold := safe_int (cfgGetN config "long_name_threshold")
    let use_alternate :=
      match threshold with
      | some t => decide ((count_name_characters full_name : Int) > t)
      | Option.none => false
    if use_alternate then
      let alt_font_size := (safe_float (cfgGetN config "long_name_font_size")).getD base_font_size
      let text_y := cfgGetD config "long_name_text_y" (cfgGetN config "text_y")
      .ok (alt_font_size, text_y)
    else
      .ok (base_font_size, cfgGetN config "text_y")

/-- `resolve_text_baseline` from generator.py, applied to the raw
`text_y` value it reads from its config argument: a non-`None` value that
`float()` accepts is the baseline; otherwise the baseline falls back to
`pdf.font_size` (the font height in mm). -/
def resolve_text_baseline (pdf_font_size : ℚ) (raw_baseline : PyValue) : ℚ :=
  if raw_baseline = PyValue.none then pdf_font_size
  else match safe_float raw_baseline with
    | some b => b
    | Option.none => pdf_font_size

/-- `calculate_text_center` from generator.py: the measured width of the
text (via `pdf.get_string_width`) subtracted from the page width, halved.
There is no clamping in the source. -/
def calculate_text_center (get_string_width : String → ℚ) (text : String)
    (page_width : ℚ) : ℚ :=
  (page_width - get_string_width text) / 2

/-- `_pt_to_mm` from config_gui.py: `points * 25.4 / 72.0`. -/
def pt_to_mm (points : ℚ) : ℚ :=
  points * 25.4 / 72

/-- `ConfigGUI._center_text_x` from config_gui.py, as a function of the
canvas width and the measured pixel width of the text: Python
`max(int((width - text_width) / 2), 0)`, where `int` of the float
division of two machine-size ints is truncation toward zero. -/
def center_text_x (width text_width : Int) : Int :=
  max ((width - text_width).tdiv 2) 0

/-- `ConfigGUI._resolve_split_gap_mm` from config_gui.py: a nonempty
entry accepted by `_safe_float` is the gap; otherwise the gap is
`_pt_to_mm(font_size_pt or 0.0) * 0.85` (the `or 0.0` is the identity on
numbers: it replaces a zero float by zero). -/
def resolve_split_gap_mm (gap_entry : String) (font_size_pt : ℚ) : ℚ :=
  let raw_value := py_strip gap_entry
  if raw_value ≠ "" then
    match pyFloatOfString raw_value with
    | some gap => gap
    | Option.none => pt_to_mm font_size_pt * 0.85
  else pt_to_mm font_size_pt * 0.85

/-- Python `str()` on a configuration scalar, to the extent the debug-mode
normalizer needs it: strings are themselves, booleans render as
`True`/`False`, ints in decimal, `None` as `"None"`. A float renders as
its decimal digits followed by `.0` when integral; the placeholder
rendering of non-integral floats keeps the one property used here, that
no float rendering coincides with a debug-mode keyword. -/
def py_str : PyValue → String
  | .str s => s
  | .bool true => "True"
  | .bool false => "False"
  | .int n => toString n
  | .float q => if q.den = 1 then toString q.num ++ ".0" else toString q.num ++ "/" ++ toString q.den
  | .none => "None"

/-- `resolve_debug_mode` from generator.py: stringify, strip and
lower-case the raw `debug_mode` value, then match it against the mapping
`{full, f, true} → ("Full", True)`, `{test, t, false} → ("Test", False)`;
anything else raises `ValueError` naming the raw value (the quotes around
Test/Full in the source message are elided). -/
def resolve_debug_mode (debug_mode_config : Config) : Except String (String × Bool) :=
  let raw_value := cfgGetN debug_mode_config "debug_mode"
  let normalized := py_lower (py_strip (py_str raw_value))
  if normalized = "full" ∨ normalized = "f" ∨ normalized = "true" then
    .ok ("Full", true)
  else if normalized = "test" ∨ normalized = "t" ∨ normalized = "false" then
    .ok ("Test", false)
  else
    .error ("Unsupported debug_mode value: " ++ py_str raw_value ++ ". Expected Test or Full.")

/-- The split gate of `generate_certificate` (generator.py lines 250-257):
`should_split_full_name` on `f"{name} {surname}"`, and both the stripped
name and the stripped surname nonempty (Python truthiness of a string). -/
def use_split (name surname : String) (config : Config) : Bool :=
  should_split_full_name (name ++ " " ++ surname) config
    && !(py_strip name == "") && !(py_strip surname == "")

/-- One participant row of the roster CSV. -/
structure Row where
  first_name : String
  last_name : String
  email : String
deriving DecidableEq

/-- The observable outcome of one `process_csv` run: which rows got a
certificate, for which rows the mail transport was invoked, and the
exception that escaped the loop, if any. -/
structure BatchOutcome where
  rendered : List Row
  transport_invoked : List Row
  abort : Option String
deriving DecidableEq

/-- `send_email` from generator.py: the whole SMTP interaction sits in a
`try`/`except Exception` that logs the error, so the call returns
normally whatever the transport does. -/
def send_email (transport : Row → Except String Unit) (row : Row) : Unit :=
  match transport row with
  | .ok _ => ()
  | .error _ => ()

/-- The per-row loop of `process_csv` from generator.py, over an abstract
renderer (`generate_certificate`) and mail transport. A renderer
exception propagates out of the loop and the remaining rows are not
visited; `send_email` swallows transport errors, so the loop continues
past them. (The empty-roster early return only logs a warning and is
outcome-equal to the empty loop.) -/
def process_csv (render : Row → Except String String)
    (transport : Row → Except String Unit) (should_send_email : Bool) :
    List Row → BatchOutcome
  | [] => { rendered := [], transport_invoked := [], abort := Option.none }
  | row :: rest =>
    match render row with
    | .error e => { rendered := [], transport_invoked := [], abort := some e }
    | .ok _pdf_path =>
      let _ := if should_send_email then send_email transport row else ()
      let tail := process_csv render transport should_send_email rest
      { rendered := row :: tail.rendered
        transport_invoked :=
          (if should_send_email then [row] else []) ++ tail.transport_invoked
        abort := tail.abort }

/-- A width measurement under which the sample text is wider than the
canvas: the measured width is always 200 units. -/
def demoMeasure : String → ℚ := fun _ => 200

/-- A renderer standing in for `generate_certificate` that fails with an
asset-missing error on recipients named Grace and succeeds elsewhere. -/
def demoRender : Row → Except String String := fun r =>
  if r.first_name = "Grace" then
    .error "Background image not found: ./assets/background.png"
  else
    .ok ("./certificates/" ++ r.first_name ++ "_" ++ r.last_name ++ ".pdf")

/-- A mail transport that always fails. -/
def demoTransport : Row → Except String Unit := fun _ =>
  .error "SMTP connection refused"

/-- Sample roster rows. -/
def adaRow : Row := ⟨"Ada", "Lovelace", "ada@example.com"⟩

def graceRow : Row := ⟨"Grace", "Hopper", "grace@example.com"⟩

def evaRow : Row := ⟨"Eva", "Kowalska", "eva@example.com"⟩

/-- C1 counterexample: `calculate_text_center` in the generator performs
no clamping: with a measured width of 200 on a canvas of width 100 it
returns -50, a negative position, so it does not equal
`max((canvas_width - measured_width) / 2, 0)`. -/
theorem calculate_text_center_negative_cex :
    calculate_text_center demoMeasure "abcd" 100 = -50 ∧
      ¬ (0 : ℚ) ≤ calculate_text_center demoMeasure "abcd" 100 := by
  constructor
  · norm_num [calculate_text_center, demoMeasure]
  · norm_num [calculate_text_center, demoMeasure]

/-- C1 amended: the GUI's `_center_text_x` returns
`max((width - text_width) / 2 truncated, 0)` and is never negative, but
the generator's `calculate_text_center` returns the unclamped
`(page_width - measured_width(text)) / 2`, which is negative whenever
the measured text width exceeds the canvas width. -/
theorem centering_amended (measure : String → ℚ) (text : String)
    (page_width : ℚ) (w tw : Int) :
    calculate_text_center measure text page_width
        = (page_width - measure text) / 2 ∧
    (page_width < measure text →
        calculate_text_center measure text page_width < 0) ∧
    center_text_x w tw = max ((w - tw).tdiv 2) 0 ∧
    0 ≤ center_text_x w tw := by
  refine ⟨rfl, ?_, rfl, le_max_right _ _⟩
  intro h
  exact div_neg_of_neg_of_pos (by linarith) (by norm_num)

/-- C1 amended, witness at a concrete input. -/
theorem centering_amended_witness :
    calculate_text_center demoMeasure "abcd" 100 < 0 :=
  (centering_amended demoMeasure "abcd" 100 0 0).2.1 (by norm_num [demoMeasure])

/-- C4: the split decision of `should_split_full_name` on
`"given family"` uses threshold `split_name_threshold` when it is a valid
integer, defaults to 24 when the key is absent, and is false when the key
is present but invalid; the final gate of `generate_certificate`
additionally requires both stripped name parts to be nonempty. -/
theorem split_decision_spec (name surname : String) (config : Config) :
    (use_split name surname config =
      (should_split_full_name (name ++ " " ++ surname) config
        && !(py_strip name == "") && !(py_strip surname == ""))) ∧
    (cfgGet config "split_name_threshold" = Option.none →
      should_split_full_name (name ++ " " ++ surname) config
        = decide ((count_name_characters (name ++ " " ++ surname) : Int) > 24)) ∧
    (∀ v t, cfgGet config "split_name_threshold" = some v → safe_int v = some t →
      should_split_full_name (name ++ " " ++ surname) config
        = decide ((count_name_characters (name ++ " " ++ surname) : Int) > t)) ∧
    (∀ v, cfgGet config "split_name_threshold" = some v → safe_int v = Option.none →
      should_split_full_name (name ++ " " ++ surname) config = false) := by
  refine ⟨rfl, ?_, ?_, ?_⟩
  · intro h
    simp [should_split_full_name, cfgGetD, h, safe_int]
  · intro v t hv ht
    simp [should_split_full_name, cfgGetD, hv, ht]
  · intro v hv ht
    simp [should_split_full_name, cfgGetD, hv, ht]

/-- C4, witness: concrete split decisions for an absent threshold, a
valid threshold 10, and an invalid threshold string. -/
theorem split_decision_spec_witness :
    use_split "Alicja" "KowalskanowakowskaTrzecia" [] = true ∧
    should_split_full_name "Anna Nowak" []
      = decide ((count_name_characters "Anna Nowak" : Int) > 24) ∧
    should_split_full_name "Verylong firstname" [("split_name_threshold", .int 10)]
      = decide ((count_name_characters "Verylong firstname" : Int) > 10) ∧
    should_split_full_name "Verylong firstname" [("split_name_threshold", .str "oops")]
      = false := by
  refine ⟨by decide, ?_, ?_, ?_⟩
  · exact (split_decision_spec "Anna" "Nowak" []).2.1 rfl
  · exact (split_decision_spec "Verylong" "firstname"
      [("split_name_threshold", .int 10)]).2.2.1 (.int 10) 10 rfl rfl
  · exact (split_decision_spec "Verylong" "firstname"
      [("split_name_threshold", .str "oops")]).2.2.2 (.str "oops") rfl (by decide)

/-- C7: `resolve_name_style` fails exactly when `font_size` is missing or
does not coerce to a number; no other configuration field can make style
resolution fail. -/
theorem resolve_name_style_error_iff (full_name : String) (config : Config) :
    (∃ e, resolve_name_style full_name config = .error e) ↔
      safe_float (cfgGetN config "font_size") = Option.none := by
  cases h : safe_float (cfgGetN config "font_size") with
  | none =>
    simp only [resolve_name_style, h, iff_true]
    exact ⟨_, rfl⟩
  | some b =>
    simp only [resolve_name_style, h]
    constructor
    · rintro ⟨e, he⟩
      split at he <;> exact Except.noConfusion he
    · intro hc
      exact Option.noConfusion hc

/-- C7, witness: with an empty configuration (so no `font_size`),
resolution fails. -/
theorem resolve_name_style_error_iff_witness :
    ∃ e, resolve_name_style "Ada Lovelace" [] = Except.error e :=
  (resolve_name_style_error_iff "Ada Lovelace" []).mpr rfl

/-- C9: the debug-mode normalizer stringifies non-string values before
matching: the boolean `False` renders as `"False"`, normalizes to
`"false"` and resolves to `("Test", False)`; the boolean `True` resolves
to `("Full", True)`; neither raises. -/
theorem debug_mode_accepts_booleans :
    resolve_debug_mode [("debug_mode", PyValue.bool false)] = .ok ("Test", false) ∧
    resolve_debug_mode [("debug_mode", PyValue.bool true)] = .ok ("Full", true) ∧
    py_str (PyValue.bool false) = "False" ∧
    py_lower (py_strip "False") = "false" :=
  ⟨rfl, rfl, rfl, rfl⟩

/-- C10: `should_split_full_name` accepts a non-integer numeric threshold
by truncating it toward zero: a float threshold decides exactly as its
truncation does, and only values rejected by `_safe_int` (such as
non-numeric strings) suppress splitting. -/
theorem split_threshold_truncates (full_name : String) (config : Config)
    (q : ℚ) (v : PyValue) :
    (cfgGet config "split_name_threshold" = some (.float q) →
      should_split_full_name full_name config =
        should_split_full_name full_name
          [("split_name_threshold", PyValue.int (ratTrunc q))]) ∧
    (cfgGet config "split_name_threshold" = some v → safe_int v = Option.none →
      should_split_full_name full_name config = false) := by
  constructor
  · intro h
    have hl : should_split_full_name full_name config
        = decide ((count_name_characters full_name : Int) > ratTrunc q) := by
      unfold should_split_full_name cfgGetD
      rw [h]
      rfl
    have hr : should_split_full_name full_name
        [("split_name_threshold", PyValue.int (ratTrunc q))]
        = decide ((count_name_characters full_name : Int) > ratTrunc q) := rfl
    rw [hl, hr]
  · intro hv ht
    simp [should_split_full_name, cfgGetD, hv, ht]

/-- C10, witness: a threshold of 24.9 behaves exactly as 24, and a
non-numeric threshold suppresses splitting. -/
theorem split_threshold_truncates_witness :
    should_split_full_name "Alicja KowalskanowakowskaTrzecia"
        [("split_name_threshold", PyValue.float (mkRat 249 10))]
      = should_split_full_name "Alicja KowalskanowakowskaTrzecia"
        [("split_name_threshold", PyValue.int (ratTrunc (mkRat 249 10)))] ∧
    ratTrunc (mkRat 249 10) = 24 ∧
    should_split_full_name "Alicja KowalskanowakowskaTrzecia"
        [("split_name_threshold", PyValue.str "many")] = false := by
  refine ⟨?_, by decide, ?_⟩
  · exact (split_threshold_truncates "Alicja KowalskanowakowskaTrzecia"
      [("split_name_threshold", PyValue.float (mkRat 249 10))]
      (mkRat 249 10) PyValue.none).1 rfl
  · exact (split_threshold_truncates "Alicja KowalskanowakowskaTrzecia"
      [("split_name_threshold", PyValue.str "many")] 0 (PyValue.str "many")).2
      rfl (by decide)

/-- C5: when `long_name_threshold` is a valid integer and the visible
name length strictly exceeds it, `resolve_name_style` returns the font
size `long_name_font_size` when that coerces to a number and the base
size otherwise, and the baseline `long_name_text_y` when that key is
present and the base `text_y` otherwise. -/
theorem long_name_override_spec (full_name : String) (config : Config)
    (base : ℚ) (t : Int)
    (hbase : safe_float (cfgGetN config "font_size") = some base)
    (ht : safe_int (cfgGetN config "long_name_threshold") = some t)
    (hlen : (count_name_characters full_name : Int) > t) :
    resolve_name_style full_name config =
      .ok ((safe_float (cfgGetN config "long_name_font_size")).getD base,
        cfgGetD config "long_name_text_y" (cfgGetN config "text_y")) := by
  unfold resolve_name_style
  rw [hbase, ht]
  simp [hlen]

/-- C5, witness: a 5-character threshold with an 11-character visible
name picks the long-name size 24 and baseline 90. -/
theorem long_name_override_spec_witness :
    resolve_name_style "Ada Lovelace"
        [("font_size", PyValue.float 32), ("long_name_threshold", PyValue.int 5),
          ("long_name_font_size", PyValue.float 24),
          ("long_name_text_y", PyValue.float 90), ("text_y", PyValue.float 107)]
      = .ok (24, PyValue.float 90) :=
  (long_name_override_spec "Ada Lovelace"
    [("font_size", PyValue.float 32), ("long_name_threshold", PyValue.int 5),
      ("long_name_font_size", PyValue.float 24),
      ("long_name_text_y", PyValue.float 90), ("text_y", PyValue.float 107)]
    32 5 rfl rfl (by decide)).trans rfl

/-- C6: the split line gap is `split_name_line_gap` when that coerces to
a number, and otherwise `0.85` times the font size converted from points
to millimetres, hence `32 * 0.85 * (25.4/72)` for size 32 with no
override; the GUI `_resolve_split_gap_mm` follows the same contract on
its raw entry string. -/
theorem split_line_gap_spec (config : Config) (f g g2 : ℚ) (entry : String) :
    (safe_float (cfgGetN config "split_name_line_gap") = some g →
      resolve_split_line_gap (pt_to_mm f) config = g) ∧
    (safe_float (cfgGetN config "split_name_line_gap") = Option.none →
      resolve_split_line_gap (pt_to_mm f) config = f * 0.85 * (25.4 / 72)) ∧
    resolve_split_line_gap (pt_to_mm 32) [] = 32 * 0.85 * (25.4 / 72) ∧
    (pyFloatOfString (py_strip entry) = Option.none →
      resolve_split_gap_mm entry f = f * 0.85 * (25.4 / 72)) ∧
    (py_strip entry ≠ "" → pyFloatOfString (py_strip entry) = some g2 →
      resolve_split_gap_mm entry f = g2) := by
  have key : ∀ x : ℚ, resolve_split_line_gap x config =
      match safe_float (cfgGetN config "split_name_line_gap") with
      | some gap => gap
      | Option.none => x * 0.85 := fun _ => rfl
  refine ⟨?_, ?_, ?_, ?_, ?_⟩
  · intro h
    rw [key, h]
  · intro h
    rw [key, h]
    unfold pt_to_mm
    ring
  · have h32 : resolve_split_line_gap (pt_to_mm 32) [] = pt_to_mm 32 * 0.85 := rfl
    rw [h32]
    unfold pt_to_mm
    ring
  · intro h
    unfold resolve_split_gap_mm
    by_cases he : py_strip entry = ""
    · rw [if_neg (by simp [he])]
      unfold pt_to_mm
      ring
    · rw [if_pos he, h]
      unfold pt_to_mm
      ring
  · intro hne h
    unfold resolve_split_gap_mm
    rw [if_pos hne, h]

/-- C6, witness: a configured gap of 18 wins; with no override the gap
at font size 32 is `32 * 0.85 * (25.4/72)` mm, for the generator and for
the GUI entry fallback alike. -/
theorem split_line_gap_spec_witness :
    resolve_split_line_gap (pt_to_mm 10) [("split_name_line_gap", PyValue.float 18)] = 18 ∧
    resolve_split_line_gap (pt_to_mm 32) [] = 32 * 0.85 * (25.4 / 72) ∧
    resolve_split_gap_mm "bad" 32 = 32 * 0.85 * (25.4 / 72) ∧
    resolve_split_gap_mm "18" 32 = 18 := by
  refine ⟨?_, ?_, ?_, ?_⟩
  · exact (split_line_gap_spec [("split_name_line_gap", PyValue.float 18)] 10 18 0 "").1 rfl
  · exact (split_line_gap_spec [] 32 0 0 "").2.2.1
  · exact (split_line_gap_spec [] 32 0 0 "bad").2.2.2.1 (by decide)
  · exact (split_line_gap_spec [] 32 0 18 "18").2.2.2.2 (by decide) (by decide)

/-- C8: `resolve_debug_mode` returns ("Full", True) exactly when the
normalized raw value is one of full/f/true, ("Test", False) exactly when
it is one of test/t/false, and otherwise fails with a message naming the
raw value. -/
theorem debug_mode_spec (config : Config) (normalized : String)
    (hn : normalized = py_lower (py_strip (py_str (cfgGetN config "debug_mode")))) :
    (resolve_debug_mode config = .ok ("Full", true) ↔
      (normalized = "full" ∨ normalized = "f" ∨ normalized = "true")) ∧
    (resolve_debug_mode config = .ok ("Test", false) ↔
      (normalized = "test" ∨ normalized = "t" ∨ normalized = "false")) ∧
    (¬(normalized = "full" ∨ normalized = "f" ∨ normalized = "true") →
      ¬(normalized = "test" ∨ normalized = "t" ∨ normalized = "false") →
      resolve_debug_mode config =
        .error ("Unsupported debug_mode value: "
          ++ py_str (cfgGetN config "debug_mode") ++ ". Expected Test or Full.")) := by
  have key : resolve_debug_mode config =
      (if normalized = "full" ∨ normalized = "f" ∨ normalized = "true" then
        .ok ("Full", true)
      else if normalized = "test" ∨ normalized = "t" ∨ normalized = "false" then
        .ok ("Test", false)
      else
        .error ("Unsupported debug_mode value: "
          ++ py_str (cfgGetN config "debug_mode") ++ ". Expected Test or Full.")) := by
    rw [hn]
    rfl
  rw [key]
  by_cases h1 : normalized = "full" ∨ normalized = "f" ∨ normalized = "true" <;>
    by_cases h2 : normalized = "test" ∨ normalized = "t" ∨ normalized = "false"
  · exfalso
    rcases h1 with h | h | h <;> rcases h2 with h' | h' | h' <;>
      (rw [h] at h'; exact absurd h' (by decide))
  · simp [h1, h2]
  · simp [h1, h2]
  · simp [h1, h2]

/-- C8, witness: "TRUE" resolves to ("Full", True) and "maybe" fails
naming the raw value. -/
theorem debug_mode_spec_witness :
    resolve_debug_mode [("debug_mode", PyValue.str "TRUE")] = .ok ("Full", true) ∧
    resolve_debug_mode [("debug_mode", PyValue.str "maybe")] =
      .error "Unsupported debug_mode value: maybe. Expected Test or Full." := by
  constructor
  · exact (debug_mode_spec [("debug_mode", PyValue.str "TRUE")] "true" rfl).1.mpr
      (by simp)
  · exact (debug_mode_spec [("debug_mode", PyValue.str "maybe")] "maybe" rfl).2.2
      (by simp) (by simp)

/-- C3 counterexample: a configured `font_size` of 0 resolves without an
error to the font size 0, which is not strictly positive. -/
theorem font_size_zero_cex :
    resolve_name_style "Jan Kowalski" [("font_size", PyValue.float 0)]
      = .ok (0, PyValue.none) ∧ ¬ (0 : ℚ) < 0 :=
  ⟨rfl, by norm_num⟩

/-- C3 amended: style resolution never checks the sign of a size: the
resolved size is one of the configured candidates, so it is strictly
positive whenever every font-size field that coerces to a number is
strictly positive — but a configured zero or negative size passes
through resolution unchanged. -/
theorem font_size_positive_amended (full_name : String) (config : Config)
    (base : ℚ)
    (hbase : safe_float (cfgGetN config "font_size") = some base)
    (hpos : 0 < base)
    (hlong : ∀ a, safe_float (cfgGetN config "long_name_font_size") = some a → 0 < a)
    (hsplit : ∀ a, safe_float (cfgGetN config "split_name_font_size") = some a → 0 < a)
    (fs : ℚ) (ty : PyValue)
    (hres : resolve_name_style full_name config = .ok (fs, ty)) (bl : PyValue) :
    0 < fs ∧ 0 < (resolve_split_style fs bl config).1 := by
  have hfs : 0 < fs := by
    unfold resolve_name_style at hres
    rw [hbase] at hres
    split at hres
    · exact Except.noConfusion hres
    · rename_i bfs heq
      injection heq with heqb
      subst heqb
      dsimp only at hres
      split at hres
      · simp only [Except.ok.injEq, Prod.mk.injEq] at hres
        obtain ⟨h1, h2⟩ := hres
        cases hl : safe_float (cfgGetN config "long_name_font_size") with
        | none =>
          rw [hl, Option.getD_none] at h1
          rw [← h1]
          exact hpos
        | some a =>
          rw [hl, Option.getD_some] at h1
          rw [← h1]
          exact hlong a hl
      · simp only [Except.ok.injEq, Prod.mk.injEq] at hres
        obtain ⟨h1, h2⟩ := hres
        rw [← h1]
        exact hpos
  refine ⟨hfs, ?_⟩
  have hsplit_eq : (resolve_split_style fs bl config).1 =
      (if cfgGetN config "split_name_font_size" = PyValue.none then fs
        else match safe_float (cfgGetN config "split_name_font_size") with
          | some override_font => override_font
          | Option.none => fs) := rfl
  rw [hsplit_eq]
  split
  · exact hfs
  · split
    · rename_i override_font ho
      exact hsplit override_font ho
    · exact hfs

/-- C3 amended, witness: a positive configured size 32 resolves to the
positive size 32 through both the name-style and split-style steps. -/
theorem font_size_positive_amended_witness :
    (0 : ℚ) < 32 ∧
      0 < (resolve_split_style 32 PyValue.none [("font_size", PyValue.float 32)]).1 :=
  font_size_positive_amended "Ada Lovelace" [("font_size", PyValue.float 32)] 32
    rfl (by norm_num) (fun a h => Option.noConfusion h) (fun a h => Option.noConfusion h)
    32 PyValue.none rfl PyValue.none

/-- All-ok batch: when every row renders, the driver renders all rows in
order and nothing escapes, whatever the transport does. -/
theorem process_csv_all_ok (render : Row → Except String String)
    (transport : Row → Except String Unit) (should_send_email : Bool) :
    ∀ rows : List Row, (∀ x ∈ rows, ∃ p, render x = .ok p) →
      (process_csv render transport should_send_email rows).abort = Option.none ∧
      (process_csv render transport should_send_email rows).rendered = rows := by
  intro rows
  induction rows with
  | nil => exact fun _ => ⟨rfl, rfl⟩
  | cons r rest ih =>
    intro h
    obtain ⟨p, hp⟩ := h r (List.mem_cons_self r rest)
    obtain ⟨ha, hr⟩ := ih (fun x hx => h x (List.mem_cons_of_mem _ hx))
    simp only [process_csv, hp]
    exact ⟨ha, by rw [hr]⟩

/-- First render failure aborts the batch: the rows before it are
rendered, the failing row's error escapes, and the rows after it are
never visited. -/
theorem process_csv_abort (render : Row → Except String String)
    (transport : Row → Except String Unit) (should_send_email : Bool) :
    ∀ (pre : List Row) (r : Row) (post : List Row) (e : String),
      (∀ x ∈ pre, ∃ p, render x = .ok p) → render r = .error e →
      process_csv render transport should_send_email (pre ++ r :: post) =
        { rendered := pre,
          transport_invoked := if should_send_email then pre else [],
          abort := some e } := by
  intro pre
  induction pre with
  | nil =>
    intro r post e _ hr
    simp only [List.nil_append, process_csv, hr]
    cases should_send_email <;> rfl
  | cons x xs ih =>
    intro r post e hok hr
    obtain ⟨p, hp⟩ := hok x (List.mem_cons_self x xs)
    have ht := ih r post e (fun y hy => hok y (List.mem_cons_of_mem _ hy)) hr
    simp only [List.cons_append, process_csv, hp, ht]
    cases should_send_email <;> simp [ht]

/-- C2 counterexample: with a roster of Grace (whose render fails with an
asset-missing error) followed by Eva (whose render would succeed), the
failure escapes `process_csv`: nothing is rendered and Eva is never
processed — a per-recipient render failure aborts the whole batch. -/
theorem batch_abort_cex :
    (∃ p, demoRender evaRow = Except.ok p) ∧
    (process_csv demoRender demoTransport false [graceRow, evaRow]).rendered = [] ∧
    (process_csv demoRender demoTransport false [graceRow, evaRow]).abort
      = some "Background image not found: ./assets/background.png" :=
  ⟨⟨_, rfl⟩, rfl, rfl⟩

/-- C2 amended: transport failures are per-row — `send_email` swallows
every transport error, so a batch whose renders all succeed renders
every row and aborts nothing, whatever the transport does; but a render
failure is not caught in `process_csv`: the first one aborts the batch,
and subsequent rows are not processed. -/
theorem batch_driver_amended (render : Row → Except String String)
    (transport : Row → Except String Unit) (should_send_email : Bool)
    (rows pre post : List Row) (r : Row) (e : String) :
    ((∀ x ∈ rows, ∃ p, render x = .ok p) →
      (process_csv render transport should_send_email rows).abort = Option.none ∧
      (process_csv render transport should_send_email rows).rendered = rows) ∧
    ((∀ x ∈ pre, ∃ p, render x = .ok p) → render r = .error e →
      process_csv render transport should_send_email (pre ++ r :: post) =
        { rendered := pre,
          transport_invoked := if should_send_email then pre else [],
          abort := some e }) :=
  ⟨process_csv_all_ok render transport should_send_email rows,
    process_csv_abort render transport should_send_email pre r post e⟩

/-- C2 amended, witness: Ada renders and is handed to the (failing)
transport; Grace's render failure aborts; Eva is never visited. -/
theorem batch_driver_amended_witness :
    process_csv demoRender demoTransport true [adaRow, graceRow, evaRow] =
      { rendered := [adaRow], transport_invoked := [adaRow],
        abort := some "Background image not found: ./assets/background.png" } :=
  (batch_driver_amended demoRender demoTransport true [] [adaRow] [evaRow]
      graceRow "Background image not found: ./assets/background.png").2
    (fun x hx => by
      rw [List.mem_singleton] at hx
      subst hx
      exact ⟨_, rfl⟩)
    rfl

end CertGen
